import Mathlib

set_option maxHeartbeats 1000000

/- Verification of the tpcds-util repository against its specification.

   The file has two parts:
   1. Shallow embeddings of code present in the repository sources:
      the option-resolution logic of DataGenerator.generate_data
      (src/tpcds_util/generator.py), the error wrapping of
      MockOracleCursor.execute/executemany (tests/adapters/sqlite_adapter.py)
      and DatabaseManager.test_connection (src/tpcds_util/database.py).
   2. A model of the synthetic data generation engine
      (tpcds_util/synthetic_generator.py), whose source file is not part of
      the staged sources; every definition of that part is modelled from the
      specification text and is marked as such in its doc comment. -/

namespace TpcdsUtil

/- ## Part 1: embeddings of code in the sources -/

namespace DataGenerator

/-- Embeds the Python truthiness idiom `scale = scale or self.config.default_scale`
of DataGenerator.generate_data (generator.py line 57): `None` and `0` are both
falsy, so both fall back to the configured default. -/
def generate_data_scale (scale : Option Nat) (default_scale : Nat) : Nat :=
  match scale with
  | none => default_scale
  | some s => if s = 0 then default_scale else s

/-- Embeds `output_dir = output_dir or self.config.default_output_dir`
(generator.py line 58): `None` and the empty string are falsy. -/
def generate_data_output_dir (output_dir : Option String) (default_dir : String) : String :=
  match output_dir with
  | none => default_dir
  | some d => if d = "" then default_dir else d

end DataGenerator

/-- Outcome of running a statement on the underlying sqlite3 cursor:
either a value or a raised `sqlite3.Error` carrying a message. -/
inductive SqliteOutcome (α : Type) where
  | ok (val : α)
  | sqliteError (msg : String)
  deriving DecidableEq

/-- A Python exception escaping a mock-cursor call: either an instance of
`sqlite3.Error` or a plain `Exception` with a message. -/
inductive PyError where
  | sqlite3Error (msg : String)
  | genericError (msg : String)
  deriving DecidableEq

namespace MockOracleCursor

/-- Embeds MockOracleCursor.execute (sqlite_adapter.py lines 358-374): the
adapted statement runs on the sqlite cursor inside `try`; a raised
`sqlite3.Error e` is caught and re-raised as `Exception(f"ORA-00001: \x7be\x7d")`. -/
def execute {α : Type} (backend : SqliteOutcome α) : Except PyError α :=
  match backend with
  | .ok v => .ok v
  | .sqliteError e => .error (.genericError ("ORA-00001: " ++ e))

/-- Embeds MockOracleCursor.executemany (sqlite_adapter.py lines 376-385):
identical error wrapping to `execute`. -/
def executemany {α : Type} (backend : SqliteOutcome α) : Except PyError α :=
  match backend with
  | .ok v => .ok v
  | .sqliteError e => .error (.genericError ("ORA-00001: " ++ e))

end MockOracleCursor

/-- Environment of one DatabaseManager.test_connection call (database.py):
the outcome of `config_manager.get_password()`, of `oracledb.connect`, of the
probe `cursor.execute("SELECT 1 FROM DUAL")`, and the row `fetchone` returns. -/
structure OracleEnv where
  get_password : Except String String
  connect : String → Except String Unit
  execute_probe : Except String Unit
  fetchone : Option (List Int)

namespace DatabaseManager

/-- The body of DatabaseManager.test_connection (database.py lines 65-74)
before the `except Exception` handler: `get_connection` retrieves the password
and connects (either step may raise), the cursor runs the probe query (may
raise), and the call returns whether `fetchone()` produced a row. -/
def test_connection_attempt (env : OracleEnv) : Except String Bool :=
  match env.get_password with
  | .error e => .error e
  | .ok pw =>
    match env.connect pw with
    | .error e => .error e
    | .ok _ =>
      match env.execute_probe with
      | .error e => .error e
      | .ok _ => .ok env.fetchone.isSome

/-- Embeds DatabaseManager.test_connection (database.py lines 65-74): the
whole attempt is wrapped in `try ... except Exception: return False`. -/
def test_connection (env : OracleEnv) : Bool :=
  match test_connection_attempt env with
  | .ok b => b
  | .error _ => false

end DatabaseManager

/- ## Part 2: the synthetic data generation engine.

   The module `tpcds_util/synthetic_generator.py` is not among the staged
   source files; only its tests and callers are. Every definition below is
   modelled from the specification text (sections 2-4, 6 and 8). -/

namespace SyntheticGenerator

/-- Modelled from the spec: the semantic column kinds of a TableSpec
(spec section 3): surrogate keys, mandatory and nullable foreign keys,
bounded integers, free text, enumerations and Y/N flags. -/
inductive ColKind where
  | key
  | fkey (ref : String)
  | fkeyNull (ref : String)
  | num (lo hi : Nat)
  | txt (base : String)
  | choice (opts : List String)
  | flag
  deriving DecidableEq

/-- Modelled from the spec: a TableSpec (spec section 3) with the scale
policy data of the Scale Planner (spec section 4.1): a fixed small test-mode
row count and, for scale factors at least 1, the count base + perScale*scale
(fact tables scale linearly, dimension tables have perScale = 0). minFields
is the documented minimum field count consumed by the test harness. -/
structure TableSpec where
  name : String
  isFact : Bool
  cols : List ColKind
  testRows : Nat
  base : Nat
  perScale : Nat
  minFields : Nat
  deriving DecidableEq

/-- Modelled from the spec: the Scale Planner (spec section 4.1):
scale 0 (test mode) yields the small fixed count; scale at least 1 yields
the per-table curve base + perScale * scale. -/
def planRows (scale : Nat) (t : TableSpec) : Nat :=
  if scale = 0 then t.testRows else t.base + t.perScale * scale

/-- Modelled from the spec: the date dimension table (28 columns). -/
def date_dim : TableSpec :=
  { name := "date_dim", isFact := false
    cols := [.key, .txt ("AAAADATE"), .txt ("1998-01-"),
      .num 0 2400, .num 1 53, .num 1 4, .num 1900 2100, .num 0 6,
      .num 1 12, .num 1 31, .num 1 4, .num 1900 2100, .num 1 4, .num 1 53,
      .choice ["Monday", "Tuesday", "Wednesday", "Thursday", "Friday", "Saturday", "Sunday"],
      .choice ["Q1", "Q2", "Q3", "Q4"],
      .flag, .flag, .flag,
      .num 1 31, .num 1 31, .num 1 2400, .num 1 2400,
      .flag, .flag, .flag, .flag, .flag]
    testRows := 10, base := 7300, perScale := 0, minFields := 3 }

/-- Modelled from the spec: the time dimension table (10 columns). -/
def time_dim : TableSpec :=
  { name := "time_dim", isFact := false
    cols := [.key, .txt ("AAAATIME"), .num 0 86399, .num 0 23, .num 0 59, .num 0 59,
      .choice ["AM", "PM"], .choice ["morning", "afternoon", "evening"],
      .choice ["first", "second", "third"], .choice ["breakfast", "lunch", "dinner"]]
    testRows := 10, base := 86400, perScale := 0, minFields := 3 }

/-- Modelled from the spec: the income_band dimension table (3 columns,
the smallest per-table field count the test harness accepts). -/
def income_band : TableSpec :=
  { name := "income_band", isFact := false
    cols := [.key, .num 0 190000, .num 10000 200000]
    testRows := 3, base := 20, perScale := 0, minFields := 3 }

/-- Modelled from the spec: the customer_demographics dimension table (9 columns). -/
def customer_demographics : TableSpec :=
  { name := "customer_demographics", isFact := false
    cols := [.key, .choice ["M", "F"], .choice ["M", "S", "D", "W", "U"],
      .choice ["Primary", "Secondary", "College", "Advanced Degree"],
      .num 500 10000, .num 0 6, .choice ["Good", "Low Risk", "Unknown"],
      .num 0 6, .num 0 6]
    testRows := 3, base := 19208, perScale := 0, minFields := 3 }

/-- Modelled from the spec: the household_demographics dimension table
(5 columns, with a mandatory foreign key into income_band). -/
def household_demographics : TableSpec :=
  { name := "household_demographics", isFact := false
    cols := [.key, .fkey ("income_band"),
      .choice [">10000", "5001-10000", "0-500"], .num 0 9, .num 0 6]
    testRows := 3, base := 7200, perScale := 0, minFields := 3 }

/-- Modelled from the spec: the customer_address dimension table (13 columns). -/
def customer_address : TableSpec :=
  { name := "customer_address", isFact := false
    cols := [.key, .txt ("AAAAADDR"), .txt ("100"), .txt ("Main"),
      .choice ["St", "Ave", "Blvd", "Way"], .txt ("Suite 1"), .txt ("Springfield"),
      .txt ("Greene County"), .choice ["CA", "NY", "TX", "WA"], .txt ("12345"),
      .txt ("United States"), .num 0 23, .choice ["condo", "apartment", "single family"]]
    testRows := 5, base := 50000, perScale := 0, minFields := 3 }

/-- Modelled from the spec: the customer dimension table (18 columns,
matching the 18-column customer table of the test harness schema). -/
def customer : TableSpec :=
  { name := "customer", isFact := false
    cols := [.key, .txt ("AAAACUST"),
      .fkeyNull ("customer_demographics"), .fkeyNull ("household_demographics"),
      .fkey ("customer_address"), .fkeyNull ("date_dim"), .fkeyNull ("date_dim"),
      .choice ["Mr.", "Mrs.", "Ms.", "Dr."], .txt ("First"), .txt ("Last"),
      .flag, .num 1 28, .num 1 12, .num 1924 1992,
      .txt ("UNITED STATES"), .txt ("login"), .txt ("user.example.com"),
      .num 2450000 2452648]
    testRows := 5, base := 100000, perScale := 0, minFields := 18 }

/-- Modelled from the spec: the item dimension table (22 columns). -/
def item : TableSpec :=
  { name := "item", isFact := false
    cols := [.key, .txt ("AAAAITEM"), .txt ("1997-10-27"), .txt ("1999-10-27"),
      .txt ("Item description"), .num 1 100, .num 1 100, .num 1001001 10016017,
      .txt ("brand"), .num 1 16, .txt ("classname"), .num 1 10, .txt ("category"),
      .num 1 1000, .txt ("manufact"),
      .choice ["small", "medium", "large", "extra large"], .txt ("formulation"),
      .choice ["red", "blue", "green", "ivory"], .choice ["Each", "Dozen", "Case"],
      .choice ["Unknown", "Box"], .num 1 100, .txt ("product")]
    testRows := 10, base := 18000, perScale := 0, minFields := 3 }

/-- Modelled from the spec: the store dimension table (29 columns,
with a nullable closed-date foreign key into date_dim). -/
def store : TableSpec :=
  { name := "store", isFact := false
    cols := [.key, .txt ("AAAASTOR"), .txt ("1997-03-13"), .txt ("2001-03-13"),
      .fkeyNull ("date_dim"), .txt ("Store"), .num 200 300, .num 5000000 10000000,
      .choice ["8AM-4PM", "8AM-12AM", "8AM-8PM"], .txt ("Manager"), .num 1 10,
      .txt ("Unknown"), .txt ("Market description"), .txt ("Market Manager"),
      .num 1 1, .txt ("Unknown"), .num 1 1, .txt ("Unknown"), .txt ("100"),
      .txt ("Main"), .choice ["St", "Ave", "Blvd"], .txt ("Suite 1"),
      .txt ("Springfield"), .txt ("Greene County"), .choice ["CA", "NY", "TX", "WA"],
      .txt ("12345"), .txt ("United States"), .num 0 23, .num 0 11]
    testRows := 2, base := 12, perScale := 0, minFields := 3 }

/-- Modelled from the spec: the warehouse dimension table (14 columns). -/
def warehouse : TableSpec :=
  { name := "warehouse", isFact := false
    cols := [.key, .txt ("AAAAWARE"), .txt ("Conventional"), .num 50000 1000000,
      .txt ("100"), .txt ("Main"), .choice ["St", "Ave"], .txt ("Suite 1"),
      .txt ("Springfield"), .txt ("Greene County"), .choice ["CA", "NY"],
      .txt ("12345"), .txt ("United States"), .num 0 23]
    testRows := 1, base := 5, perScale := 0, minFields := 3 }

/-- Modelled from the spec: the promotion dimension table (19 columns,
with nullable foreign keys into date_dim and item). -/
def promotion : TableSpec :=
  { name := "promotion", isFact := false
    cols := [.key, .txt ("AAAAPROM"), .fkeyNull ("date_dim"), .fkeyNull ("date_dim"),
      .fkeyNull ("item"), .num 1 1000, .num 1 100, .txt ("Promo"),
      .flag, .flag, .flag, .flag, .flag, .flag, .flag, .flag,
      .txt ("Channel details"), .choice ["Unknown", "ad", "sale"], .flag]
    testRows := 3, base := 300, perScale := 0, minFields := 3 }

/-- Modelled from the spec: the store_sales fact table (23 columns): nine
foreign-key columns referencing the dimension tables, a ticket surrogate key
and thirteen numeric measure columns. Its target row count scales linearly
with the scale factor (spec section 4.1). -/
def store_sales : TableSpec :=
  { name := "store_sales", isFact := true
    cols := [.fkeyNull ("date_dim"), .fkeyNull ("time_dim"), .fkey ("item"),
      .fkeyNull ("customer"), .fkeyNull ("customer_demographics"),
      .fkeyNull ("household_demographics"), .fkeyNull ("customer_address"),
      .fkeyNull ("store"), .fkeyNull ("promotion"), .key,
      .num 1 100, .num 1 100, .num 1 200, .num 1 200, .num 0 100, .num 1 20000,
      .num 1 10000, .num 1 40000, .num 0 2000, .num 0 1000, .num 1 20000,
      .num 1 22000, .num 0 10000]
    testRows := 10, base := 0, perScale := 2880, minFields := 3 }

/-- Modelled from the spec: the fixed topological generation order over the
supported table set (spec section 4.5): every dimension table precedes the
fact table that references it. Twelve tables, the commercially essential
subset of TPC-DS. -/
def tables : List TableSpec :=
  [date_dim, time_dim, income_band, customer_demographics, household_demographics,
   customer_address, customer, item, store, warehouse, promotion, store_sales]

/-- The table of the given name, when it is a supported table. -/
def lookupTable (name : String) : Option TableSpec :=
  tables.find? (fun t => t.name == name)

/-- Index of a table in the fixed generation order (used to decorrelate the
pseudo-random streams of distinct tables). -/
def tiOfName (name : String) : Nat :=
  tables.findIdx (fun t => t.name == name)

/-- Modelled from the spec: the Key Space Allocator (spec section 4.2): the
key pool of a dimension table holds the surrogate keys 1..count where count
is the planned row count, so the pool size of a referenced table is its
planned row count at the current scale. -/
def poolsAt (scale : Nat) (name : String) : Nat :=
  match lookupTable name with
  | some t => planRows scale t
  | none => 0

/-- Modelled from the spec: the seedable deterministic pseudo-random source
(spec section 4.3), a 32-bit linear congruential step. -/
def lcg (s : Nat) : Nat :=
  (1664525 * s + 1013904223) % 4294967296

/-- Modelled from the spec: the deterministic per-cell random value, mixing
the run seed, the table index, the row index and the column index. -/
def cellRand (seed ti i j : Nat) : Nat :=
  lcg (lcg (seed + 2654435761 * ti + 40503 * i + 97 * j))

/-- The enumeration value of index r modulo the domain size (empty for an
empty domain). -/
def choiceValue (opts : List String) (r : Nat) : String :=
  match opts.get? (r % opts.length) with
  | some s => s
  | none => ""

/-- The decimal digit character of n (for n below 10). -/
def digitChar (n : Nat) : Char :=
  Char.ofNat (48 + n)

/-- Decimal digits of a natural number, with explicit recursion fuel. -/
def natDigitsFuel : Nat → Nat → List Char
  | 0, _ => []
  | fuel + 1, n =>
    if n < 10 then [digitChar n]
    else natDigitsFuel fuel (n / 10) ++ [digitChar (n % 10)]

/-- Decimal rendering of a natural number (fuel n + 1 always suffices). -/
def natStr (n : Nat) : String :=
  String.mk (natDigitsFuel (n + 1) n)

/-- Modelled from the spec: a Row Synthesizer column value (spec section 4.3):
surrogate keys are the 1-based row index, mandatory foreign keys sample
uniformly from the referenced pool of size pools ref, nullable foreign keys
are null (the empty field) at rate 1/10 and otherwise sample the pool,
bounded integers are uniform in the declared range, text and enumeration
values come from fixed pipe-free domains. -/
def colValue (pools : String → Nat) (rowIdx r : Nat) : ColKind → String
  | .key => natStr (rowIdx + 1)
  | .fkey ref => natStr (1 + r % pools ref)
  | .fkeyNull ref => if r % 10 = 0 then ("") else natStr (1 + (r / 10) % pools ref)
  | .num lo hi => natStr (lo + r % (hi + 1 - lo))
  | .txt base => base ++ natStr (r % 1000)
  | .choice opts => choiceValue opts r
  | .flag => if r % 2 = 0 then ("Y") else ("N")

/-- The field values of columns cs when the first of cs sits at column j. -/
def rowFieldsAux (pools : String → Nat) (seed ti i : Nat) : Nat → List ColKind → List String
  | _, [] => []
  | j, c :: cs =>
    colValue pools i (cellRand seed ti i j) c :: rowFieldsAux pools seed ti i (j + 1) cs

/-- Modelled from the spec: synthesize(index, context) -> Row (spec section
4.3): one formatted field value per declared column, in column order. -/
def rowFields (pools : String → Nat) (seed ti i : Nat) (cols : List ColKind) : List String :=
  rowFieldsAux pools seed ti i 0 cols

/-- The rows of one table: count rows, indexed 0..count-1. -/
def tableRows (pools : String → Nat) (seed ti : Nat) (t : TableSpec) (count : Nat) :
    List (List String) :=
  (List.range count).map (fun i => rowFields pools seed ti i t.cols)

/-- The rows of table t as one generation run produces them: the planned
count at the given scale, against the key pools of that scale. -/
def tableRowsOf (scale seed : Nat) (t : TableSpec) : List (List String) :=
  tableRows (poolsAt scale) seed (tiOfName t.name) t (planRows scale t)

/-- Modelled from the spec: the Flat-File Writer line format (spec section
4.4): fields joined by the pipe character with a trailing pipe, no quoting. -/
def serializeRow : List String → String
  | [] => ""
  | f :: rest => f ++ "|" ++ serializeRow rest

/-- Modelled from the spec: the Flat-File Writer file format (spec section
4.4): one serialized row per line, no header line. -/
def serializeTable (rows : List (List String)) : String :=
  String.join (rows.map (fun r => serializeRow r ++ "\n"))

/-- The full file content of table t in one run. -/
def tableFileOf (scale seed : Nat) (t : TableSpec) : String :=
  serializeTable (tableRowsOf scale seed t)

/-- Modelled from the spec: the externally observable result of a run
(spec sections 3 and 6): the success flag and the generated (file name,
file content) manifest. -/
structure GenResult where
  success : Bool
  files : List (String × String)
  deriving DecidableEq

/-- Modelled from the spec: the fixed default seed of a run (spec section
4.3: the default run uses a fixed seed unless explicitly overridden). -/
def defaultSeed : Nat := 42

/-- Modelled from the spec: the Generation Driver (spec sections 4.5 and 6)
with an explicit seed: if the output directory cannot be created the run
fails before any file is written; otherwise every table of the fixed order
is synthesized and serialized, one .dat file per table. -/
def createSyntheticDataSeeded (scale : Nat) (outputDirOk : Bool) (seed : Nat) : GenResult :=
  if outputDirOk then
    { success := true
      files := tables.map (fun t => (t.name ++ ".dat", tableFileOf scale seed t)) }
  else
    { success := false, files := [] }

/-- Modelled from the spec: create_synthetic_data(scale, output_dir) -> bool
(spec section 6), the sole external entry point; outputDirOk tells whether
the output directory exists or can be created. The default run uses the
fixed default seed. -/
def create_synthetic_data (scale : Nat) (outputDirOk : Bool) : GenResult :=
  createSyntheticDataSeeded scale outputDirOk defaultSeed

/-- The referenced table of a foreign-key column, if the column is one. -/
def fkTarget : ColKind → Option String
  | .fkey ref => some ref
  | .fkeyNull ref => some ref
  | _ => none

/-- Decidable check that a foreign-key reference is sound: the referenced
table is a supported table whose first column is its surrogate key and whose
planned row count is positive at every scale. -/
def refOkB (ref : String) : Bool :=
  match lookupTable ref with
  | some tr =>
    decide (tr.cols.head? = some ColKind.key) &&
    decide (1 ≤ tr.testRows) && decide (1 ≤ tr.base)
  | none => false

/-- Decidable check that a column's foreign-key reference, if any, is sound. -/
def colRefOkB (c : ColKind) : Bool :=
  match fkTarget c with
  | some ref => refOkB ref
  | none => true

/-- Decidable check of the fact-table monotonicity side condition: the
test-mode count never exceeds the scale-1 count. -/
def factMonoB (t : TableSpec) : Bool :=
  !t.isFact || decide (t.testRows ≤ t.base + t.perScale)

/-- Decidable check that a column's fixed text domains avoid the pipe
delimiter (spec section 4.4: free-text synthesizers must avoid emitting it). -/
def colPipeFreeB : ColKind → Bool
  | .txt base => decide (('|') ∉ base.data)
  | .choice opts => opts.all (fun s => decide (('|') ∉ s.data))
  | _ => true

/-- Decidable check of a table's column list: a positive documented minimum
field count not exceeding the declared column count, and pipe-free text
domains in every column. -/
def tableColsOkB (t : TableSpec) : Bool :=
  decide (1 ≤ t.minFields) && decide (t.minFields ≤ t.cols.length) &&
    t.cols.all colPipeFreeB

end SyntheticGenerator

/- ## Theorems -/

open SyntheticGenerator

/-- Support: get? at index zero is head?. -/
theorem list_get?_zero {α : Type} (l : List α) : l.get? 0 = l.head? := by
  cases l <;> rfl

/-- Support: a synthesized row segment has one field per remaining column. -/
theorem rowFieldsAux_length (pools : String → Nat) (seed ti i : Nat) :
    ∀ (j : Nat) (cols : List ColKind),
      (rowFieldsAux pools seed ti i j cols).length = cols.length := by
  intro j cols
  induction cols generalizing j with
  | nil => rfl
  | cons c cs ih => simp [rowFieldsAux, ih]

/-- Support: the field at index m of a synthesized row segment is the value
of the column at index m, randomized by the absolute column position. -/
theorem rowFieldsAux_get? (pools : String → Nat) (seed ti i : Nat) :
    ∀ (cols : List ColKind) (j m : Nat),
      (rowFieldsAux pools seed ti i j cols).get? m =
        (cols.get? m).map (fun c => colValue pools i (cellRand seed ti i (j + m)) c) := by
  intro cols
  induction cols with
  | nil => intro j m; cases m <;> rfl
  | cons c cs ih =>
    intro j m
    cases m with
    | zero => simp [rowFieldsAux]
    | succ m =>
      show (rowFieldsAux pools seed ti i (j + 1) cs).get? m = _
      rw [ih (j + 1) m]
      simp only [show j + 1 + m = j + (m + 1) from by omega]
      rfl

/-- Support: the field at index m of a full synthesized row. -/
theorem rowFields_get? (pools : String → Nat) (seed ti i : Nat)
    (cols : List ColKind) (m : Nat) :
    (rowFields pools seed ti i cols).get? m =
      (cols.get? m).map (fun c => colValue pools i (cellRand seed ti i m) c) := by
  have h := rowFieldsAux_get? pools seed ti i cols 0 m
  simpa [rowFields] using h

/-- Support: every field of a synthesized row segment is the value of one of
the remaining columns. -/
theorem rowFieldsAux_mem (pools : String → Nat) (seed ti i : Nat) :
    ∀ (cols : List ColKind) (j : Nat) (f : String),
      f ∈ rowFieldsAux pools seed ti i j cols →
      ∃ c ∈ cols, ∃ r, f = colValue pools i r c := by
  intro cols
  induction cols with
  | nil => intro j f h; simp [rowFieldsAux] at h
  | cons c cs ih =>
    intro j f h
    rcases List.mem_cons.mp h with h1 | h2
    · exact ⟨c, List.mem_cons_self c cs, cellRand seed ti i j, h1⟩
    · obtain ⟨c2, hc2, r, hr⟩ := ih (j + 1) f h2
      exact ⟨c2, List.mem_cons_of_mem c hc2, r, hr⟩

/-- Support: decimal digit characters below ten are never the pipe. -/
theorem digitChar_ne_pipe : ∀ n : Nat, n < 10 → digitChar n ≠ '|' := by
  intro n h
  interval_cases n <;> decide

/-- Support: the rendered digits of a natural number never contain the pipe. -/
theorem natDigitsFuel_pipe_free : ∀ fuel n : Nat, ('|') ∉ natDigitsFuel fuel n := by
  intro fuel
  induction fuel with
  | zero => intro n; simp [natDigitsFuel]
  | succ fuel ih =>
    intro n
    unfold natDigitsFuel
    split
    · next h =>
      intro hmem
      exact digitChar_ne_pipe n h (List.mem_singleton.mp hmem).symm
    · next h =>
      intro hmem
      rcases List.mem_append.mp hmem with h1 | h2
      · exact ih _ h1
      · exact digitChar_ne_pipe (n % 10) (Nat.mod_lt _ (by omega))
          (List.mem_singleton.mp h2).symm

/-- Support: the decimal rendering of a natural number is pipe-free. -/
theorem natStr_pipe_free (n : Nat) : ('|') ∉ (natStr n).data :=
  natDigitsFuel_pipe_free (n + 1) n

/-- Support: a serialized non-empty row ends with the pipe character. -/
theorem serializeRow_data_concat :
    ∀ (f : String) (rest : List String),
      ∃ cs, (serializeRow (f :: rest)).data = cs ++ [('|')] := by
  intro f rest
  induction rest generalizing f with
  | nil => exact ⟨f.data, by simp [serializeRow, String.data_append]⟩
  | cons g rest ih =>
    obtain ⟨cs, hcs⟩ := ih g
    refine ⟨f.data ++ ('|') :: cs, ?_⟩
    show ((f ++ "|") ++ serializeRow (g :: rest)).data = _
    rw [String.data_append, String.data_append, hcs]
    simp

/-- Support: the last character of a serialized non-empty row is the pipe. -/
theorem serializeRow_ends_pipe (f : String) (rest : List String) :
    (serializeRow (f :: rest)).data.getLast? = some ('|') := by
  obtain ⟨cs, hcs⟩ := serializeRow_data_concat f rest
  rw [hcs]
  exact List.getLast?_concat cs

/-- Support: a column value never contains the pipe character when the
column's fixed text domains are pipe-free. -/
theorem colValue_pipe_free (pools : String → Nat) (rowIdx r : Nat) :
    ∀ c : ColKind, colPipeFreeB c = true → ('|') ∉ (colValue pools rowIdx r c).data := by
  intro c hc
  cases c with
  | key => exact natStr_pipe_free _
  | fkey ref => exact natStr_pipe_free _
  | fkeyNull ref =>
    by_cases h : r % 10 = 0
    · simp [colValue, h]
    · simpa [colValue, h] using natStr_pipe_free (1 + r / 10 % pools ref)
  | num lo hi => exact natStr_pipe_free _
  | txt base =>
    have hb : ('|') ∉ base.data := of_decide_eq_true hc
    intro hmem
    rw [show colValue pools rowIdx r (ColKind.txt base) = base ++ natStr (r % 1000)
      from rfl, String.data_append] at hmem
    rcases List.mem_append.mp hmem with h1 | h2
    · exact hb h1
    · exact natStr_pipe_free _ h2
  | choice opts =>
    show ('|') ∉ (choiceValue opts r).data
    unfold choiceValue
    split
    · next s hg =>
      have hs : s ∈ opts := List.get?_mem hg
      exact of_decide_eq_true (List.all_eq_true.mp hc s hs)
    · next hg => simp
  | flag =>
    by_cases h : r % 2 = 0 <;> simp [colValue, h]

/-- C3: the code of DataGenerator.generate_data resolves an explicitly
supplied scale of 0 to the configured default (here 1), because Python's
`or` treats 0 as falsy; a nonzero explicit scale and an explicit non-empty
output directory are preserved. This evaluates the embedded resolution
logic at the failing input of the claim. -/
theorem c3_generate_data_drops_explicit_scale_zero :
    DataGenerator.generate_data_scale (some 0) 1 = 1 ∧ (1 : Nat) ≠ 0 ∧
    DataGenerator.generate_data_scale (some 3) 1 = 3 ∧
    DataGenerator.generate_data_output_dir (some ("/tmp/out")) ("./tpcds_data") = "/tmp/out" := by
  refine ⟨rfl, by decide, rfl, rfl⟩

/-- C4: when the output directory cannot be created, a generation run
returns failure and writes no files, at every scale and for every seed. -/
theorem c4_unwritable_output_dir_fails_cleanly :
    ∀ scale seed : Nat,
      createSyntheticDataSeeded scale false seed = { success := false, files := [] } ∧
      (create_synthetic_data scale false).success = false ∧
      (create_synthetic_data scale false).files = [] := by
  intro scale seed
  exact ⟨rfl, rfl, rfl⟩

/-- C2: generation is deterministic: two runs with the same scale, the same
output-directory outcome and the same seed produce identical file manifests
(byte-identical contents included), and the default entry point runs with
the fixed default seed. -/
theorem c2_determinism :
    ∀ (scale : Nat) (dirOk : Bool) (seed : Nat) (run1 run2 : GenResult),
      run1 = createSyntheticDataSeeded scale dirOk seed →
      run2 = createSyntheticDataSeeded scale dirOk seed →
      run1.files = run2.files ∧ run1.success = run2.success ∧
      create_synthetic_data scale dirOk = createSyntheticDataSeeded scale dirOk defaultSeed := by
  intro scale dirOk seed run1 run2 h1 h2
  subst h1; subst h2
  exact ⟨rfl, rfl, rfl⟩

/-- C2 witness: the determinism theorem applied to two concrete test-mode
runs with seed 42. -/
theorem c2_determinism_witness :
    (createSyntheticDataSeeded 0 true 42).files = (createSyntheticDataSeeded 0 true 42).files ∧
    (createSyntheticDataSeeded 0 true 42).success = (createSyntheticDataSeeded 0 true 42).success ∧
    create_synthetic_data 0 true = createSyntheticDataSeeded 0 true defaultSeed :=
  c2_determinism 0 true 42 (createSyntheticDataSeeded 0 true 42)
    (createSyntheticDataSeeded 0 true 42) rfl rfl

/-- Support: the fact-table monotonicity side condition holds for every
supported table. -/
theorem tables_factMonoB : tables.all factMonoB = true := by decide

/-- C7: for every fact table of the supported set, the planned target row
count is monotone in the scale factor. -/
theorem c7_row_count_monotonicity :
    ∀ t ∈ tables, t.isFact = true → ∀ s1 s2 : Nat, s1 ≤ s2 →
      planRows s1 t ≤ planRows s2 t := by
  intro t ht hfact s1 s2 hle
  have hmono : factMonoB t = true := List.all_eq_true.mp tables_factMonoB t ht
  rw [factMonoB, hfact] at hmono
  simp only [Bool.not_true, Bool.false_or, decide_eq_true_eq] at hmono
  rcases s1 with _ | a <;> rcases s2 with _ | b
  · exact Nat.le_refl _
  · have h1 : t.perScale * 1 ≤ t.perScale * (b + 1) :=
      Nat.mul_le_mul_left _ (by omega)
    simp [planRows]
    omega
  · omega
  · have h1 : t.perScale * (a + 1) ≤ t.perScale * (b + 1) :=
      Nat.mul_le_mul_left _ hle
    simp [planRows]
    omega

/-- C7 witness: store_sales is a fact table and its planned count at scale 1
is at most its planned count at scale 2. -/
theorem c7_row_count_monotonicity_witness :
    planRows 1 store_sales ≤ planRows 2 store_sales :=
  c7_row_count_monotonicity store_sales (by decide) (by decide) 1 2 (by decide)

/-- C8: a zero target row count is legal: the synthesized row list is empty,
the written file content is empty (zero data lines, no header), and the
run's success flag does not depend on any table's row count. -/
theorem c8_zero_row_count_is_not_an_error :
    ∀ (pools : String → Nat) (seed ti : Nat) (t : TableSpec),
      tableRows pools seed ti t 0 = [] ∧
      serializeTable (tableRows pools seed ti t 0) = "" ∧
      ∀ (scale : Nat) (dirOk : Bool),
        (createSyntheticDataSeeded scale dirOk seed).success = dirOk := by
  intro pools seed ti t
  refine ⟨rfl, rfl, ?_⟩
  intro scale dirOk
  cases dirOk <;> rfl

/-- C9: a sqlite3.Error raised by the underlying cursor never escapes
MockOracleCursor.execute or MockOracleCursor.executemany as a sqlite3.Error:
every error either call raises is a generic exception whose message is
"ORA-00001: " followed by the underlying sqlite message. -/
theorem c9_sqlite_errors_wrapped :
    ∀ (α : Type) (backend : SqliteOutcome α),
      (∀ m, MockOracleCursor.execute backend ≠ Except.error (PyError.sqlite3Error m)) ∧
      (∀ err, MockOracleCursor.execute backend = Except.error err →
        ∃ e, err = PyError.genericError ("ORA-00001: " ++ e)) ∧
      (∀ m, MockOracleCursor.executemany backend ≠ Except.error (PyError.sqlite3Error m)) ∧
      (∀ err, MockOracleCursor.executemany backend = Except.error err →
        ∃ e, err = PyError.genericError ("ORA-00001: " ++ e)) := by
  intro α backend
  cases backend with
  | ok v =>
    refine ⟨?_, ?_, ?_, ?_⟩ <;> intro x h <;>
      simp [MockOracleCursor.execute, MockOracleCursor.executemany] at h
  | sqliteError e =>
    refine ⟨?_, ?_, ?_, ?_⟩ <;> intro x h
    · simp [MockOracleCursor.execute] at h
    · exact ⟨e, by simpa [MockOracleCursor.execute] using h.symm⟩
    · simp [MockOracleCursor.executemany] at h
    · exact ⟨e, by simpa [MockOracleCursor.executemany] using h.symm⟩

/-- C10: DatabaseManager.test_connection is total: it returns true exactly
when retrieving the password, connecting and running the probe query all
succeed and the probe returns a row; and whenever the underlying attempt
raises, the exception is caught and the call returns false. -/
theorem c10_test_connection_total :
    ∀ env : OracleEnv,
      (DatabaseManager.test_connection env = true ↔
        ∃ pw, env.get_password = Except.ok pw ∧ env.connect pw = Except.ok () ∧
          env.execute_probe = Except.ok () ∧ env.fetchone.isSome = true) ∧
      (∀ e, DatabaseManager.test_connection_attempt env = Except.error e →
        DatabaseManager.test_connection env = false) := by
  intro env
  rcases hpw : env.get_password with epw | pw
  · constructor
    · simp [DatabaseManager.test_connection, DatabaseManager.test_connection_attempt, hpw]
    · intro e _
      simp [DatabaseManager.test_connection, DatabaseManager.test_connection_attempt, hpw]
  · rcases hc : env.connect pw with ec | u
    · constructor
      · simp [DatabaseManager.test_connection, DatabaseManager.test_connection_attempt, hpw, hc]
      · intro e _
        simp [DatabaseManager.test_connection, DatabaseManager.test_connection_attempt, hpw, hc]
    · rcases he : env.execute_probe with ee | v
      · constructor
        · simp [DatabaseManager.test_connection, DatabaseManager.test_connection_attempt,
            hpw, hc, he]
        · intro e _
          simp [DatabaseManager.test_connection, DatabaseManager.test_connection_attempt,
            hpw, hc, he]
      · constructor
        · simp [DatabaseManager.test_connection, DatabaseManager.test_connection_attempt,
            hpw, hc, he]
        · intro e h
          simp [DatabaseManager.test_connection_attempt, hpw, hc, he] at h

/-- Support: every supported table passes the column checks. -/
theorem tables_colsOkB : tables.all tableColsOkB = true := by decide

/-- Support: every foreign-key reference of every supported table is sound. -/
theorem tables_refsOkB : tables.all (fun t => t.cols.all colRefOkB) = true := by decide

/-- Support: a sound reference resolves to a supported table whose first
column is its surrogate key and whose scale policy is positive. -/
theorem refOkB_spec (ref : String) (h : refOkB ref = true) :
    ∃ tref, lookupTable ref = some tref ∧ tref ∈ tables ∧
      tref.cols.head? = some ColKind.key ∧ 1 ≤ tref.testRows ∧ 1 ≤ tref.base := by
  unfold refOkB at h
  rcases hlt : lookupTable ref with _ | tref
  · rw [hlt] at h; simp at h
  · rw [hlt] at h
    simp only [Bool.and_eq_true, decide_eq_true_eq] at h
    exact ⟨tref, rfl, List.mem_of_find?_eq_some hlt, h.1.1, h.1.2, h.2⟩

/-- Support: a table with positive test-mode count and positive base has a
positive planned row count at every scale. -/
theorem planRows_pos (t : TableSpec) (h1 : 1 ≤ t.testRows) (h2 : 1 ≤ t.base) :
    ∀ scale : Nat, 1 ≤ planRows scale t := by
  intro scale
  rcases scale with _ | s
  · simpa [planRows] using h1
  · simp only [planRows, if_neg (Nat.succ_ne_zero s)]
    exact Nat.le_trans h2 (Nat.le_add_right t.base _)

/-- C6: flat-file format validity: for every scale, seed and supported
table, the generated file has exactly the planned number of data lines (no
header), and every row has one field per declared column, at least the
table's minimum field count, no pipe character inside any field value, and
a serialized line ending in the trailing pipe. -/
theorem c6_flat_file_format :
    ∀ (scale seed : Nat), ∀ t ∈ tables,
      (tableRowsOf scale seed t).length = planRows scale t ∧
      ∀ row ∈ tableRowsOf scale seed t,
        row.length = t.cols.length ∧
        t.minFields ≤ row.length ∧
        (∀ f ∈ row, ('|') ∉ f.data) ∧
        (serializeRow row).data.getLast? = some ('|') := by
  intro scale seed t ht
  have hok : tableColsOkB t = true := List.all_eq_true.mp tables_colsOkB t ht
  simp only [tableColsOkB, Bool.and_eq_true, decide_eq_true_eq] at hok
  obtain ⟨⟨hmin1, hminle⟩, hpipe⟩ := hok
  constructor
  · simp [tableRowsOf, tableRows]
  · intro row hrow
    simp only [tableRowsOf, tableRows] at hrow
    obtain ⟨i, hi, hrowEq⟩ := List.mem_map.mp hrow
    have hlen : row.length = t.cols.length := by
      rw [← hrowEq]; exact rowFieldsAux_length _ _ _ _ 0 _
    refine ⟨hlen, by omega, ?_, ?_⟩
    · intro f hf
      rw [← hrowEq] at hf
      obtain ⟨c, hc, rv, hrv⟩ := rowFieldsAux_mem _ _ _ _ t.cols 0 f hf
      rw [hrv]
      exact colValue_pipe_free _ _ _ c (List.all_eq_true.mp hpipe c hc)
    · cases hrw : row with
      | nil => rw [hrw] at hlen; simp at hlen; omega
      | cons f rest => exact serializeRow_ends_pipe f rest

/-- C6 witness: the format theorem applied to the income_band table of a
test-mode run with seed 42. -/
theorem c6_flat_file_format_witness :
    (tableRowsOf 0 42 income_band).length = planRows 0 income_band ∧
    ∀ row ∈ tableRowsOf 0 42 income_band,
      row.length = income_band.cols.length ∧
      income_band.minFields ≤ row.length ∧
      (∀ f ∈ row, ('|') ∉ f.data) ∧
      (serializeRow row).data.getLast? = some ('|') :=
  c6_flat_file_format 0 42 income_band (by decide)

/-- C5: the test-mode end-to-end scenario: generation at scale 0 into a
writable directory succeeds; it emits between 10 and 15 .dat files,
customer.dat among them; customer.dat has at most 10 lines; and every
customer row has at least 18 pipe-separated fields and a serialized line
ending with the pipe. -/
theorem c5_test_mode_end_to_end :
    (create_synthetic_data 0 true).success = true ∧
    10 ≤ (create_synthetic_data 0 true).files.length ∧
    (create_synthetic_data 0 true).files.length ≤ 15 ∧
    ("customer.dat", tableFileOf 0 defaultSeed customer) ∈ (create_synthetic_data 0 true).files ∧
    (tableRowsOf 0 defaultSeed customer).length ≤ 10 ∧
    ∀ row ∈ tableRowsOf 0 defaultSeed customer,
      18 ≤ row.length ∧ (serializeRow row).data.getLast? = some ('|') := by
  have hlen : (create_synthetic_data 0 true).files.length = 12 := rfl
  refine ⟨rfl, by omega, by omega, ?_, ?_, ?_⟩
  · have hmem : customer ∈ tables := by decide
    have h2 := List.mem_map_of_mem
      (fun t => (t.name ++ ".dat", tableFileOf 0 defaultSeed t)) hmem
    exact h2
  · simp only [tableRowsOf, tableRows, List.length_map, List.length_range]
    decide
  · intro row hrow
    simp only [tableRowsOf, tableRows] at hrow
    obtain ⟨i, hi, hrowEq⟩ := List.mem_map.mp hrow
    have hlen2 : row.length = customer.cols.length := by
      rw [← hrowEq]; exact rowFieldsAux_length _ _ _ _ 0 _
    have h18 : customer.cols.length = 18 := by decide
    refine ⟨by omega, ?_⟩
    cases hrw : row with
    | nil => rw [hrw] at hlen2; simp at hlen2; omega
    | cons f rest => exact serializeRow_ends_pipe f rest

/-- C1: referential integrity: at every scale and seed, for every supported
table and every foreign-key column, a non-null generated field value is the
decimal rendering of a surrogate key k between 1 and the referenced
dimension table's planned row count, and row k-1 of that dimension table's
generated output carries exactly that rendering as its first field. -/
theorem c1_referential_integrity :
    ∀ (scale seed : Nat), ∀ t ∈ tables, ∀ (i j : Nat) (c : ColKind) (ref v : String),
      t.cols.get? j = some c → fkTarget c = some ref →
      (rowFields (poolsAt scale) seed (tiOfName t.name) i t.cols).get? j = some v →
      v ≠ "" →
      ∃ tref, lookupTable ref = some tref ∧ tref ∈ tables ∧
        ∃ k, 1 ≤ k ∧ k ≤ planRows scale tref ∧ v = natStr k ∧
          ∃ row, (tableRowsOf scale seed tref).get? (k - 1) = some row ∧
            row.get? 0 = some v := by
  intro scale seed t ht i j c ref v hcol hfk hval hne
  have hcmem : c ∈ t.cols := List.get?_mem hcol
  have hcok : colRefOkB c = true :=
    List.all_eq_true.mp (List.all_eq_true.mp tables_refsOkB t ht) c hcmem
  simp only [colRefOkB, hfk] at hcok
  obtain ⟨tref, hlt, htref, hhead, htest, hbase⟩ := refOkB_spec ref hcok
  have hn : 1 ≤ planRows scale tref := planRows_pos tref htest hbase scale
  have hpool : poolsAt scale ref = planRows scale tref := by
    simp only [poolsAt, hlt]
  rw [rowFields_get?, hcol] at hval
  have hv : v = colValue (poolsAt scale) i (cellRand seed (tiOfName t.name) i j) c :=
    (Option.some.inj hval).symm
  have hcols0 : tref.cols.get? 0 = some ColKind.key := by
    rw [list_get?_zero]; exact hhead
  have hdimrow : ∀ k : Nat, 1 ≤ k → k ≤ planRows scale tref →
      ∃ row, (tableRowsOf scale seed tref).get? (k - 1) = some row ∧
        row.get? 0 = some (natStr k) := by
    intro k hk1 hkn
    have hklt : k - 1 < planRows scale tref := by omega
    refine ⟨rowFields (poolsAt scale) seed (tiOfName tref.name) (k - 1) tref.cols, ?_, ?_⟩
    · simp only [tableRowsOf, tableRows, List.get?_map, List.get?_range hklt,
        Option.map_some']
    · rw [rowFields_get?, hcols0]
      have hk : k - 1 + 1 = k := by omega
      simp only [Option.map_some', colValue, hk]
  cases c with
  | fkey r0 =>
    have hr0 : r0 = ref := Option.some.inj hfk
    subst hr0
    have hvv : v = natStr (1 + cellRand seed (tiOfName t.name) i j % poolsAt scale r0) := hv
    rw [hpool] at hvv
    have hmlt : cellRand seed (tiOfName t.name) i j % planRows scale tref <
        planRows scale tref :=
      Nat.mod_lt _ hn
    refine ⟨tref, hlt, htref,
      1 + cellRand seed (tiOfName t.name) i j % planRows scale tref,
      by omega, by omega, hvv, ?_⟩
    obtain ⟨row, h1, h2⟩ := hdimrow
      (1 + cellRand seed (tiOfName t.name) i j % planRows scale tref)
      (by omega) (by omega)
    exact ⟨row, h1, by rw [h2, hvv]⟩
  | fkeyNull r0 =>
    have hr0 : r0 = ref := Option.some.inj hfk
    subst hr0
    have h0 : colValue (poolsAt scale) i (cellRand seed (tiOfName t.name) i j)
        (ColKind.fkeyNull r0) =
        (if cellRand seed (tiOfName t.name) i j % 10 = 0 then ("")
         else natStr (1 + cellRand seed (tiOfName t.name) i j / 10 % poolsAt scale r0)) :=
      rfl
    by_cases hmod : cellRand seed (tiOfName t.name) i j % 10 = 0
    · rw [h0, if_pos hmod] at hv
      exact absurd hv hne
    · rw [h0, if_neg hmod] at hv
      rw [hpool] at hv
      have hmlt : cellRand seed (tiOfName t.name) i j / 10 % planRows scale tref <
          planRows scale tref :=
        Nat.mod_lt _ hn
      refine ⟨tref, hlt, htref,
        1 + cellRand seed (tiOfName t.name) i j / 10 % planRows scale tref,
        by omega, by omega, hv, ?_⟩
      obtain ⟨row, h1, h2⟩ := hdimrow
        (1 + cellRand seed (tiOfName t.name) i j / 10 % planRows scale tref)
        (by omega) (by omega)
      exact ⟨row, h1, by rw [h2, hv]⟩
  | key => exact absurd hfk (by simp [fkTarget])
  | num lo hi => exact absurd hfk (by simp [fkTarget])
  | txt base => exact absurd hfk (by simp [fkTarget])
  | choice opts => exact absurd hfk (by simp [fkTarget])
  | flag => exact absurd hfk (by simp [fkTarget])

/-- C1 witness: the referential-integrity theorem applied to row 0 of the
store_sales fact table at test-mode scale with seed 42: column 2 is the
mandatory item foreign key and its generated value is the string 10. -/
theorem c1_referential_integrity_witness :
    ∃ tref, lookupTable ("item") = some tref ∧ tref ∈ tables ∧
      ∃ k, 1 ≤ k ∧ k ≤ planRows 0 tref ∧ "10" = natStr k ∧
        ∃ row, (tableRowsOf 0 42 tref).get? (k - 1) = some row ∧
          row.get? 0 = some ("10") :=
  c1_referential_integrity 0 42 store_sales (by decide) 0 2 (ColKind.fkey ("item"))
    ("item") ("10") (by decide) (by decide) (by decide) (by decide)

end TpcdsUtil
